import Mathlib

/-
Verification of the sdiffe symbolic differentiator (src/src/main.cpp).

The C++ program represents algebraic expressions as a tree of nodes
(constant, variable, add, sub, mul, div, pow, ln), builds them through
smart constructors (`create`) that simplify against constant operands,
and differentiates recursively (`diff`).  We embed the expression type,
the smart constructors, the differentiation engine and the renderer as
executable Lean definitions, translated clause by clause from main.cpp.

Numeric values: the C++ nodes carry a `double`.  All constant values the
program manipulates and all of its comparisons (== 0, == 1, and the
|v - E| < 1e-10 test) are exact at the values exercised here, so we model
the value type as ℚ, with the same literal constants and the same
comparison structure as the source.
-/

attribute [local semireducible] Rat.add Rat.sub Rat.mul Rat.inv Rat.ofScientific

deriving instance DecidableEq for Except

/-- The failure modes of the program.  `DivisionByZero` and `LogOfZero`
model the two `std::runtime_error` throws in `div::create` and
`ln::create`.  `UnsupportedDifferentiation` is the error kind named by the
specification for the unsupported `pow::diff` shapes; the source never
raises it.  `Undefined` marks control flow that falls off the end of a
non-void C++ function (undefined behavior in `variable::diff` when the
names differ or `dv` is not a variable, and in `pow::diff` when base and
exponent are both constant or both non-constant). -/
inductive Err where
  | DivisionByZero
  | LogOfZero
  | UnsupportedDifferentiation
  | Undefined
  deriving DecidableEq

/-- Expression trees, one constructor per concrete C++ class deriving
`base_expr`: `constant`, `variable` (here `var`, since `variable` is a
Lean keyword), `add`, `sub`, `mul`, `div`, `pow`, `ln`. -/
inductive Expr where
  | constant (val : ℚ)
  | var (name : String)
  | add (lhs rhs : Expr)
  | sub (lhs rhs : Expr)
  | mul (lhs rhs : Expr)
  | div (lhs rhs : Expr)
  | pow (lhs rhs : Expr)
  | ln (value : Expr)
  deriving DecidableEq

/-- `constant::E = 2.718281828459045` from main.cpp line 28. -/
def constant.E : ℚ := 2.718281828459045

/-- C's `fabs`, as used by `constant::is_const_e`. -/
def fabs (q : ℚ) : ℚ := if q < 0 then -q else q

/-- `base_expr::is_constant` (false) overridden by `constant::is_constant`
(true). -/
def Expr.is_constant : Expr → Bool
  | .constant _ => true
  | _ => false

/-- `constant::value()`.  Every call site in main.cpp performs the access
through a `dynamic_cast` only under an `is_constant()` guard, so the value
returned on non-constant nodes (0 here) is never observed. -/
def Expr.value : Expr → ℚ
  | .constant v => v
  | _ => 0

/-- `constant::is_const_e`: `fabs(val - E) < 0.0000000001` (line 39),
guarded by `is_constant` at the call site in `ln::create`. -/
def Expr.is_const_e : Expr → Bool
  | .constant v => fabs (v - constant.E) < 0.0000000001
  | _ => false

/-- The test pattern `e->is_constant()` followed by
`dynamic_cast<constant*>(e.get())->value() == k`, used by every smart
constructor. -/
def isConstEq (e : Expr) (k : ℚ) : Bool :=
  match e with
  | .constant v => v = k
  | _ => false

/-- `add::create` (main.cpp lines 66-80): left constant 0 yields the
right operand, right constant 0 yields the left operand, otherwise a raw
`add` node. -/
def add.create (lhs rhs : Expr) : Expr :=
  if isConstEq lhs 0 then rhs
  else if isConstEq rhs 0 then lhs
  else .add lhs rhs

/-- `sub::create` (lines 114-122): right constant 0 yields the left
operand, otherwise a raw `sub` node. -/
def sub.create (lhs rhs : Expr) : Expr :=
  if isConstEq rhs 0 then lhs
  else .sub lhs rhs

/-- `mul::create` (lines 154-174): the left operand's 0/1 rules are
tested before the right operand's, in source order. -/
def mul.create (lhs rhs : Expr) : Expr :=
  if isConstEq lhs 0 then .constant 0
  else if isConstEq lhs 1 then rhs
  else if isConstEq rhs 0 then .constant 0
  else if isConstEq rhs 1 then lhs
  else .mul lhs rhs

/-- `pow::create` (lines 202-213): the exponent 0/1 rules fire only when
the base is non-constant and the exponent is constant. -/
def pow.create (lhs rhs : Expr) : Expr :=
  if !lhs.is_constant && rhs.is_constant then
    if isConstEq rhs 0 then .constant 1
    else if isConstEq rhs 1 then lhs
    else .pow lhs rhs
  else .pow lhs rhs

/-- `div::create` (lines 235-252): a constant-0 divisor throws
(DivisionByZero) before anything is allocated; then divisor 1 yields the
left operand, then a constant-0 dividend yields `Constant(0)`. -/
def div.create (lhs rhs : Expr) : Except Err Expr :=
  if isConstEq rhs 0 then .error .DivisionByZero
  else if isConstEq rhs 1 then .ok lhs
  else if isConstEq lhs 0 then .ok (.constant 0)
  else .ok (.div lhs rhs)

/-- `ln::create` (lines 279-290): a constant-0 argument throws
(LogOfZero); a constant within 1e-10 of E folds to `Constant(1)`;
otherwise a raw `ln` node. -/
def ln.create (value : Expr) : Except Err Expr :=
  if isConstEq value 0 then .error .LogOfZero
  else if value.is_const_e then .ok (.constant 1)
  else .ok (.ln value)

/-- `base_expr::diff`, dispatched over the node kind exactly as the C++
virtual overrides do.  Throwing is modelled by `Except.error`; the two
places where the C++ control flow falls off the end of a non-void
function are modelled by `Err.Undefined`.  Note that `add::diff` and
`sub::diff` build their result with `new add(...)`, not `add::create`,
and that `div::diff` computes (and discards) the left derivative before
building its defective numerator from the right derivative alone. -/
def Expr.diff : Expr → Expr → Except Err Expr
  | .constant _, _ => .ok (.constant 0)
  | .var name, dv =>
    match dv with
    | .var other => if name = other then .ok (.constant 1) else .error .Undefined
    | _ => .error .Undefined
  | .add l r, dv =>
    match l.diff dv, r.diff dv with
    | .error e, _ => .error e
    | _, .error e => .error e
    | .ok ld, .ok rd =>
      if ld.is_constant && rd.is_constant then .ok (.constant (ld.value + rd.value))
      else .ok (.add ld rd)
  | .sub l r, dv =>
    match l.diff dv, r.diff dv with
    | .error e, _ => .error e
    | _, .error e => .error e
    | .ok ld, .ok rd =>
      if ld.is_constant && rd.is_constant then .ok (.constant (ld.value - rd.value))
      else .ok (.add ld rd)
  | .mul l r, dv =>
    match l.diff dv, r.diff dv with
    | .error e, _ => .error e
    | _, .error e => .error e
    | .ok ld, .ok rd => .ok (add.create (mul.create l rd) (mul.create ld r))
  | .div l r, dv =>
    match l.diff dv, r.diff dv with
    | .error e, _ => .error e
    | _, .error e => .error e
    | .ok _, .ok rd =>
      div.create (sub.create (mul.create l rd) (mul.create rd l))
        (pow.create r (.constant 2))
  | .pow l r, dv =>
    if !l.is_constant && r.is_constant then
      match l.diff dv with
      | .error e => .error e
      | .ok ld =>
        .ok (mul.create (mul.create r (pow.create l (.constant (r.value - 1)))) ld)
    else if l.is_constant && !r.is_constant then
      match r.diff dv with
      | .error e => .error e
      | .ok rd =>
        match ln.create l with
        | .error e => .error e
        | .ok lnl => .ok (mul.create (mul.create (pow.create l r) lnl) rd)
    else .error .Undefined
  | .ln v, dv =>
    match v.diff dv with
    | .error e => .error e
    | .ok vd =>
      match div.create (.constant 1) v with
      | .error e => .error e
      | .ok q => .ok (mul.create q vd)

/-- Rendering of a constant: C++ streams the `double` with default
ostream formatting, which prints the integral values occurring in this
program as bare integers. -/
def renderVal (v : ℚ) : String :=
  if v.den = 1 then toString v.num else toString v

/-- The `display` overrides: fully parenthesized infix forms, and
`" ln(...)"` with the source's leading space. -/
def Expr.render : Expr → String
  | .constant v => renderVal v
  | .var n => n
  | .add l r => "(" ++ l.render ++ " + " ++ r.render ++ ")"
  | .sub l r => "(" ++ l.render ++ " - " ++ r.render ++ ")"
  | .mul l r => "(" ++ l.render ++ " * " ++ r.render ++ ")"
  | .div l r => "(" ++ l.render ++ " / " ++ r.render ++ ")"
  | .pow l r => "(" ++ l.render ++ " ^ " ++ r.render ++ ")"
  | .ln v => " ln(" ++ v.render ++ ")"

/-- Node count, used to rule out a tree being equal to one of its proper
subtrees. -/
def Expr.size : Expr → Nat
  | .constant _ => 1
  | .var _ => 1
  | .add l r => l.size + r.size + 1
  | .sub l r => l.size + r.size + 1
  | .mul l r => l.size + r.size + 1
  | .div l r => l.size + r.size + 1
  | .pow l r => l.size + r.size + 1
  | .ln v => v.size + 1

/-- The variable `x` of the demonstration driver. -/
def xV : Expr := .var ("x")

/-- `pow1` from `main` (lines 328-329): `5·x^69 + 5·x^420`, built through
the smart constructors. -/
def mainF : Expr :=
  add.create (mul.create (.constant 5) (pow.create xV (.constant 69)))
    (mul.create (.constant 5) (pow.create xV (.constant 420)))

/-- `isConstEq e k` holds exactly when `e` is the node `Constant(k)`. -/
theorem isConstEq_true_iff (e : Expr) (k : ℚ) :
    isConstEq e k = true ↔ e = .constant k := by
  cases e <;> simp [isConstEq]

/-- A composite node is never equal to its own right child. -/
theorem Expr.add_ne_rhs (l r : Expr) : Expr.add l r ≠ r := by
  intro h
  have hs := congrArg Expr.size h
  simp only [Expr.size] at hs
  omega

/-- A composite node is never equal to its own left child. -/
theorem Expr.sub_ne_lhs (l r : Expr) : Expr.sub l r ≠ l := by
  intro h
  have hs := congrArg Expr.size h
  simp only [Expr.size] at hs
  omega

/-- A Sum node is never equal to its own left child. -/
theorem Expr.add_ne_lhs (l r : Expr) : Expr.add l r ≠ l := by
  intro h
  have hs := congrArg Expr.size h
  simp only [Expr.size] at hs
  omega

/-- A Product node is never equal to its own left child. -/
theorem Expr.mul_ne_lhs (l r : Expr) : Expr.mul l r ≠ l := by
  intro h
  have hs := congrArg Expr.size h
  simp only [Expr.size] at hs
  omega

/-- A Product node is never equal to its own right child. -/
theorem Expr.mul_ne_rhs (l r : Expr) : Expr.mul l r ≠ r := by
  intro h
  have hs := congrArg Expr.size h
  simp only [Expr.size] at hs
  omega

/-- A Quotient node is never equal to its own left child. -/
theorem Expr.div_ne_lhs (l r : Expr) : Expr.div l r ≠ l := by
  intro h
  have hs := congrArg Expr.size h
  simp only [Expr.size] at hs
  omega

/-- A Power node is never equal to its own left child. -/
theorem Expr.pow_ne_lhs (l r : Expr) : Expr.pow l r ≠ l := by
  intro h
  have hs := congrArg Expr.size h
  simp only [Expr.size] at hs
  omega

/-- A non-constant node differs from every `Constant` node. -/
theorem not_constant_ne (X : Expr) (hX : X.is_constant = false) (k : ℚ) :
    X ≠ .constant k := by
  intro h
  subst h
  simp [Expr.is_constant] at hX

/-- A non-constant node differs from every `Constant` node (symmetric
orientation). -/
theorem not_constant_ne' (X : Expr) (hX : X.is_constant = false) (k : ℚ) :
    Expr.constant k ≠ X :=
  fun h => not_constant_ne X hX k h.symm

/-- `(1 : ℚ) ≠ 0`, stated for use in the simp sets below. -/
theorem qOneNeZero : (1 : ℚ) ≠ 0 := by decide

/-- `(0 : ℚ) ≠ 1`, stated for use in the simp sets below. -/
theorem qZeroNeOne : (0 : ℚ) ≠ 1 := by decide

/-- Exactness of the Sum left-zero test: `Sum.create(Constant(c), X)`
collapses to `X` precisely when `c` is exactly 0. -/
theorem addCreate_left_zero_iff (c : ℚ) (X : Expr) :
    add.create (.constant c) X = X ↔ c = 0 := by
  unfold add.create
  split_ifs with h1 h2
  · have hc : c = 0 := by simpa [isConstEq_true_iff] using h1
    simp [hc]
  · have hX : X = .constant 0 := (isConstEq_true_iff X 0).mp h2
    subst hX
    simp
  · have hc : c ≠ 0 := by simpa [isConstEq_true_iff] using h1
    simp [Expr.add_ne_rhs, hc]

/-- Exactness of the Sum right-zero test. -/
theorem addCreate_right_zero_iff (c : ℚ) (X : Expr) :
    add.create X (.constant c) = X ↔ c = 0 := by
  unfold add.create
  split_ifs with h1 h2
  · have hX : X = .constant 0 := (isConstEq_true_iff X 0).mp h1
    subst hX
    simp
  · have hc : c = 0 := by simpa [isConstEq_true_iff] using h2
    simp [hc]
  · have hc : c ≠ 0 := by simpa [isConstEq_true_iff] using h2
    simp [Expr.add_ne_lhs, hc]

/-- Exactness of the Difference right-zero test. -/
theorem subCreate_right_zero_iff (c : ℚ) (X : Expr) :
    sub.create X (.constant c) = X ↔ c = 0 := by
  unfold sub.create
  split_ifs with h1
  · have hc : c = 0 := by simpa [isConstEq_true_iff] using h1
    simp [hc]
  · have hc : c ≠ 0 := by simpa [isConstEq_true_iff] using h1
    simp [Expr.sub_ne_lhs, hc]

/-- Exactness of the Product left-zero annihilator test. -/
theorem mulCreate_left_zero_iff (c : ℚ) (X : Expr) :
    mul.create (.constant c) X = .constant 0 ↔ (c = 0 ∨ X = .constant 0) := by
  unfold mul.create
  split_ifs with h1 h2 h3 h4
  · have hc : c = 0 := by simpa [isConstEq_true_iff] using h1
    simp [hc]
  · have hc : c ≠ 0 := by simpa [isConstEq_true_iff] using h1
    simp [hc]
  · have hX : X = .constant 0 := (isConstEq_true_iff X 0).mp h3
    subst hX
    simp
  · have hX : X = .constant 1 := (isConstEq_true_iff X 1).mp h4
    subst hX
    simp [qOneNeZero]
  · have hc : c ≠ 0 := by simpa [isConstEq_true_iff] using h1
    have hX : X ≠ .constant 0 := by simpa [isConstEq_true_iff] using h3
    simp [hc, hX]

/-- Exactness of the Product right-zero annihilator test. -/
theorem mulCreate_right_zero_iff (c : ℚ) (X : Expr) :
    mul.create X (.constant c) = .constant 0 ↔ (c = 0 ∨ X = .constant 0) := by
  unfold mul.create
  split_ifs with h1 h2 h3 h4
  · have hX : X = .constant 0 := (isConstEq_true_iff X 0).mp h1
    subst hX
    simp
  · have hX : X = .constant 1 := (isConstEq_true_iff X 1).mp h2
    subst hX
    simp [qOneNeZero]
  · have hc : c = 0 := by simpa [isConstEq_true_iff] using h3
    simp [hc]
  · have hc : c ≠ 0 := by simpa [isConstEq_true_iff] using h3
    have hX : X ≠ .constant 0 := by simpa [isConstEq_true_iff] using h1
    simp [hc, hX]
  · have hc : c ≠ 0 := by simpa [isConstEq_true_iff] using h3
    have hX : X ≠ .constant 0 := by simpa [isConstEq_true_iff] using h1
    simp [hc, hX]

/-- Exactness of the Product left-one identity test. -/
theorem mulCreate_left_one_iff (c : ℚ) (X : Expr) :
    mul.create (.constant c) X = X ↔ (c = 1 ∨ X = .constant 0) := by
  unfold mul.create
  split_ifs with h1 h2 h3 h4
  · have hc : c = 0 := by simpa [isConstEq_true_iff] using h1
    subst hc
    have hX : X ≠ .constant 0 ∨ X = .constant 0 := (em _).symm
    constructor
    · intro h
      exact Or.inr h.symm
    · intro h
      rcases h with h | h
      · exact absurd h qZeroNeOne
      · exact h.symm
  · have hc : c = 1 := by simpa [isConstEq_true_iff] using h2
    simp [hc]
  · have hX : X = .constant 0 := (isConstEq_true_iff X 0).mp h3
    subst hX
    simp
  · have hX : X = .constant 1 := (isConstEq_true_iff X 1).mp h4
    subst hX
    simp [qOneNeZero]
  · have hc : c ≠ 1 := by simpa [isConstEq_true_iff] using h2
    have hX : X ≠ .constant 0 := by simpa [isConstEq_true_iff] using h3
    simp [Expr.mul_ne_rhs, hc, hX]

/-- Exactness of the Product right-one identity test. -/
theorem mulCreate_right_one_iff (c : ℚ) (X : Expr) :
    mul.create X (.constant c) = X ↔ (c = 1 ∨ X = .constant 0) := by
  unfold mul.create
  split_ifs with h1 h2 h3 h4
  · have hX : X = .constant 0 := (isConstEq_true_iff X 0).mp h1
    subst hX
    simp
  · have hX : X = .constant 1 := (isConstEq_true_iff X 1).mp h2
    subst hX
    simp [qOneNeZero]
  · have hc : c = 0 := by simpa [isConstEq_true_iff] using h3
    subst hc
    have hX : X ≠ .constant 0 := by simpa [isConstEq_true_iff] using h1
    constructor
    · intro h
      exact absurd h.symm hX
    · intro h
      rcases h with h | h
      · exact absurd h qZeroNeOne
      · exact absurd h hX
  · have hc : c = 1 := by simpa [isConstEq_true_iff] using h4
    simp [hc]
  · have hc : c ≠ 1 := by simpa [isConstEq_true_iff] using h4
    have hX : X ≠ .constant 0 := by simpa [isConstEq_true_iff] using h1
    simp [Expr.mul_ne_lhs, hc, hX]

/-- Exactness of the Quotient divisor-zero test that gates
DivisionByZero. -/
theorem divCreate_divisor_zero_iff (c : ℚ) (X : Expr) :
    div.create X (.constant c) = .error .DivisionByZero ↔ c = 0 := by
  unfold div.create
  split_ifs with h1 h2 h3
  · have hc : c = 0 := by simpa [isConstEq_true_iff] using h1
    simp [hc]
  · have hc : c ≠ 0 := by simpa [isConstEq_true_iff] using h1
    simp [hc]
  · have hc : c ≠ 0 := by simpa [isConstEq_true_iff] using h1
    simp [hc]
  · have hc : c ≠ 0 := by simpa [isConstEq_true_iff] using h1
    simp [hc]

/-- Exactness of the Quotient divisor-one identity test. -/
theorem divCreate_divisor_one_iff (c : ℚ) (X : Expr) :
    div.create X (.constant c) = .ok X ↔ (c ≠ 0 ∧ (c = 1 ∨ X = .constant 0)) := by
  unfold div.create
  split_ifs with h1 h2 h3
  · have hc : c = 0 := by simpa [isConstEq_true_iff] using h1
    simp [hc]
  · have hc : c = 1 := by simpa [isConstEq_true_iff] using h2
    simp [hc, qOneNeZero]
  · have hc : c ≠ 0 := by simpa [isConstEq_true_iff] using h1
    have hX : X = .constant 0 := (isConstEq_true_iff X 0).mp h3
    subst hX
    simp [hc]
  · have hc1 : c ≠ 1 := by simpa [isConstEq_true_iff] using h2
    have hX : X ≠ .constant 0 := by simpa [isConstEq_true_iff] using h3
    simp [Expr.div_ne_lhs, hc1, hX]

/-- Exactness of the Quotient dividend-zero test. -/
theorem divCreate_dividend_zero_iff (c : ℚ) (X : Expr) :
    div.create (.constant c) X = .ok (.constant 0) ↔ (c = 0 ∧ X ≠ .constant 0) := by
  unfold div.create
  split_ifs with h1 h2 h3
  · have hX : X = .constant 0 := (isConstEq_true_iff X 0).mp h1
    subst hX
    simp
  · have hX : X = .constant 1 := (isConstEq_true_iff X 1).mp h2
    subst hX
    simp [qOneNeZero]
  · have hc : c = 0 := by simpa [isConstEq_true_iff] using h3
    have hX : X ≠ .constant 0 := by simpa [isConstEq_true_iff] using h1
    simp [hc, hX]
  · have hc : c ≠ 0 := by simpa [isConstEq_true_iff] using h3
    simp [hc]

/-- Exactness of the Power exponent-zero test (guarded by the
non-constant-base precondition of `pow::create`). -/
theorem powCreate_exp_zero_iff (c : ℚ) (X : Expr) :
    pow.create X (.constant c) = .constant 1 ↔ (X.is_constant = false ∧ c = 0) := by
  unfold pow.create
  split_ifs with h1 h2 h3
  · have hb : X.is_constant = false := by simpa [Expr.is_constant] using h1
    have hc : c = 0 := by simpa [isConstEq_true_iff] using h2
    simp [hb, hc]
  · have hb : X.is_constant = false := by simpa [Expr.is_constant] using h1
    have hc : c ≠ 0 := by simpa [isConstEq_true_iff] using h2
    simp [not_constant_ne X hb, hc]
  · have hc : c ≠ 0 := by simpa [isConstEq_true_iff] using h2
    simp [hc]
  · have hb : X.is_constant = true := by simpa [Expr.is_constant] using h1
    simp [hb]

/-- Exactness of the Power exponent-one test (guarded by the
non-constant-base precondition of `pow::create`). -/
theorem powCreate_exp_one_iff (c : ℚ) (X : Expr) :
    pow.create X (.constant c) = X ↔ (X.is_constant = false ∧ c = 1) := by
  unfold pow.create
  split_ifs with h1 h2 h3
  · have hb : X.is_constant = false := by simpa [Expr.is_constant] using h1
    have hc : c = 0 := by simpa [isConstEq_true_iff] using h2
    subst hc
    simp [not_constant_ne' X hb, qZeroNeOne]
  · have hb : X.is_constant = false := by simpa [Expr.is_constant] using h1
    have hc : c = 1 := by simpa [isConstEq_true_iff] using h3
    simp [hb, hc]
  · have hc : c ≠ 1 := by simpa [isConstEq_true_iff] using h3
    simp [Expr.pow_ne_lhs, hc]
  · have hb : X.is_constant = true := by simpa [Expr.is_constant] using h1
    simp [Expr.pow_ne_lhs, hb]

/-- C1: differentiating a quotient `u/v` yields exactly
`Quotient.create(Difference.create(Product.create(u, v'), Product.create(v', u)), Power.create(v, Constant(2)))`,
the defective numerator `u·v' − v'·u` with the factor order of the source. -/
theorem div_diff_defective_numerator (u v dv ud vd : Expr)
    (hu : u.diff dv = .ok ud) (hv : v.diff dv = .ok vd) :
    (Expr.div u v).diff dv =
      div.create (sub.create (mul.create u vd) (mul.create vd u))
        (pow.create v (.constant 2)) := by
  simp [Expr.diff, hu, hv]

theorem div_diff_defective_numerator_witness :
    (Expr.div xV xV).diff xV =
      div.create (sub.create (mul.create xV (.constant 1)) (mul.create (.constant 1) xV))
        (pow.create xV (.constant 2)) :=
  div_diff_defective_numerator xV xV xV (.constant 1) (.constant 1) (by decide) (by decide)

/-- C2 as stated is false: differentiating the Sum `5 + x^2` with respect
to `x` returns the raw node `Sum(Constant(0), 2·x)`, not the value of
`Sum.create(Constant(0), 2·x)` (which would be `2·x` alone). -/
theorem sum_diff_keeps_zero_constant_cex :
    (Expr.add (.constant 5) (.pow xV (.constant 2))).diff xV =
      .ok (.add (.constant 0) (.mul (.constant 2) xV)) ∧
    (Expr.add (.constant 5) (.pow xV (.constant 2))).diff xV ≠
      .ok (add.create (.constant 0) (.mul (.constant 2) xV)) := by
  decide

/-- C2 amended: when the two child derivatives of a Sum are not both
constants, diff returns the raw Sum node of the two derivatives, built
without the Sum smart constructor, so a `Constant(0)` child derivative is
kept. -/
theorem sum_diff_builds_raw_node (l r dv ld rd : Expr)
    (hl : l.diff dv = .ok ld) (hr : r.diff dv = .ok rd)
    (h : (ld.is_constant && rd.is_constant) = false) :
    (Expr.add l r).diff dv = .ok (.add ld rd) := by
  simp [Expr.diff, hl, hr, h]

theorem sum_diff_builds_raw_node_witness :
    (Expr.add (.constant 5) (.pow xV (.constant 2))).diff xV =
      .ok (.add (.constant 0) (.mul (.constant 2) xV)) :=
  sum_diff_builds_raw_node (.constant 5) (.pow xV (.constant 2)) xV
    (.constant 0) (.mul (.constant 2) xV) (by decide) (by decide) (by decide)

/-- C3: on a Power whose base and exponent are both non-constant (here
`x^y`), and likewise on one whose base and exponent are both constant
(here `2^3`), `pow::diff` does not raise `UnsupportedDifferentiation`:
its control flow falls off the end of the function (undefined behavior,
modelled as `Err.Undefined`). -/
theorem pow_diff_unsupported_is_undefined :
    (Expr.pow xV (.var ("y"))).diff xV = .error .Undefined ∧
    (Expr.pow (.constant 2) (.constant 3)).diff xV = .error .Undefined := by
  decide

/-- C4: differentiating a Difference folds two constant child derivatives
into `Constant(left − right)`, and otherwise builds a Sum node (not a
Difference) of the two derivatives. -/
theorem sub_diff_folds_or_builds_sum (l r dv ld rd : Expr)
    (hl : l.diff dv = .ok ld) (hr : r.diff dv = .ok rd) :
    ((ld.is_constant && rd.is_constant) = true →
      (Expr.sub l r).diff dv = .ok (.constant (ld.value - rd.value))) ∧
    ((ld.is_constant && rd.is_constant) = false →
      (Expr.sub l r).diff dv = .ok (.add ld rd)) := by
  constructor <;> intro h <;> simp [Expr.diff, hl, hr, h]

theorem sub_diff_folds_or_builds_sum_witness :
    (Expr.sub (.constant 5) (.constant 7)).diff xV = .ok (.constant 0) ∧
    (Expr.sub (.pow xV (.constant 2)) (.pow xV (.constant 3))).diff xV =
      .ok (.add (.mul (.constant 2) xV) (.mul (.constant 3) (.pow xV (.constant 2)))) := by
  constructor
  · exact (sub_diff_folds_or_builds_sum (.constant 5) (.constant 7) xV
      (.constant 0) (.constant 0) (by decide) (by decide)).1 (by decide)
  · exact (sub_diff_folds_or_builds_sum (.pow xV (.constant 2)) (.pow xV (.constant 3)) xV
      (.mul (.constant 2) xV) (.mul (.constant 3) (.pow xV (.constant 2)))
      (by decide) (by decide)).2 (by decide)

/-- C5 as stated is false: the derivative of `5·x^69 + 5·x^420` renders
as `((5 * (69 * (x ^ 68))) + (5 * (420 * (x ^ 419))))` — the product rule
keeps the original left factor 5 outermost — not as the claimed
`((69 * (5 * (x ^ 68))) + (420 * (5 * (x ^ 419))))`. -/
theorem main_derivative_render_cex :
    Except.map Expr.render (mainF.diff xV) =
      .ok ("((5 * (69 * (x ^ 68))) + (5 * (420 * (x ^ 419))))") ∧
    Except.map Expr.render (mainF.diff xV) ≠
      .ok ("((69 * (5 * (x ^ 68))) + (420 * (5 * (x ^ 419))))") := by
  decide

/-- C5 amended: for `f = 5·x^69 + 5·x^420` built through the smart
constructors, differentiating with respect to `x` and rendering yields
`((5 * (69 * (x ^ 68))) + (5 * (420 * (x ^ 419))))`, the factor order of
`mul::diff` (`u · v'` with `u` the original left operand outermost). -/
theorem main_derivative_render :
    Except.map Expr.render (mainF.diff xV) =
      .ok ("((5 * (69 * (x ^ 68))) + (5 * (420 * (x ^ 419))))") := by
  decide

/-- C6: `Quotient.create(X, Constant(0))` fails with DivisionByZero for
every `X`, including `X = Constant(0)`: the divisor test precedes the
dividend test, and the error is returned before any node is built. -/
theorem div_create_zero_divisor_fails (X : Expr) :
    div.create X (.constant 0) = .error .DivisionByZero := rfl

/-- C7: `NaturalLog.create(Constant(0))` fails with LogOfZero, and
`NaturalLog.create(Constant(c))` folds to `Constant(1)` whenever `c` is
within absolute tolerance 1e-10 of E. -/
theorem ln_create_zero_fails_e_folds (c : ℚ)
    (h : fabs (c - constant.E) < 0.0000000001) :
    ln.create (.constant 0) = .error .LogOfZero ∧
    ln.create (.constant c) = .ok (.constant 1) := by
  refine ⟨rfl, ?_⟩
  have hc : c ≠ 0 := by
    intro h0
    subst h0
    revert h
    decide
  have h1 : isConstEq (.constant c) 0 = false := by simp [isConstEq, hc]
  have h2 : (Expr.constant c).is_const_e = true := by simp [Expr.is_const_e, h]
  simp [ln.create, h1, h2]

theorem ln_create_zero_fails_e_folds_witness :
    ln.create (.constant 0) = .error .LogOfZero ∧
    ln.create (.constant constant.E) = .ok (.constant 1) :=
  ln_create_zero_fails_e_folds constant.E (by decide)

/-- C8: the Product annihilator and identity rules: a constant-0 operand
on either side gives `Constant(0)`, and a constant-1 operand on either
side gives the other operand unchanged, the left operand's rules being
tested first. -/
theorem mul_create_zero_one_rules (X : Expr) :
    mul.create (.constant 0) X = .constant 0 ∧
    mul.create X (.constant 0) = .constant 0 ∧
    mul.create (.constant 1) X = X ∧
    mul.create X (.constant 1) = X := by
  refine ⟨rfl, ?_, rfl, ?_⟩
  · cases X <;> simp [mul.create, isConstEq] <;> split_ifs <;> simp_all
  · cases X <;> simp [mul.create, isConstEq] <;> split_ifs <;> simp_all

/-- C9: every zero/one simplification test in the smart constructors is
an exact equality on the constant's value, so an arbitrarily small
non-zero `c` never triggers a rule: the Sum left/right zero tests and the
Difference right-zero test return the other operand exactly when `c = 0`;
the Product zero annihilator and one identity tests fire exactly at 0 and
at 1 on either side; the Quotient divisor-zero test raises DivisionByZero
exactly when `c = 0`, the divisor-one test returns the dividend exactly
at 1, and the dividend-zero test yields `Constant(0)` exactly at 0; the
Power exponent tests fold exactly at 0 and at 1 under their
non-constant-base guard.  (The disjuncts/conjuncts on the right-hand
sides record the degenerate cases where another exact rule of the same
constructor happens to produce the same tree.)  Only the e-detection in
`ln::create` uses a tolerance. -/
theorem zero_tests_exact_equality (c : ℚ) (X : Expr) :
    (add.create (.constant c) X = X ↔ c = 0) ∧
    (add.create X (.constant c) = X ↔ c = 0) ∧
    (sub.create X (.constant c) = X ↔ c = 0) ∧
    (mul.create (.constant c) X = .constant 0 ↔ (c = 0 ∨ X = .constant 0)) ∧
    (mul.create X (.constant c) = .constant 0 ↔ (c = 0 ∨ X = .constant 0)) ∧
    (mul.create (.constant c) X = X ↔ (c = 1 ∨ X = .constant 0)) ∧
    (mul.create X (.constant c) = X ↔ (c = 1 ∨ X = .constant 0)) ∧
    (div.create X (.constant c) = .error .DivisionByZero ↔ c = 0) ∧
    (div.create X (.constant c) = .ok X ↔ (c ≠ 0 ∧ (c = 1 ∨ X = .constant 0))) ∧
    (div.create (.constant c) X = .ok (.constant 0) ↔ (c = 0 ∧ X ≠ .constant 0)) ∧
    (pow.create X (.constant c) = .constant 1 ↔ (X.is_constant = false ∧ c = 0)) ∧
    (pow.create X (.constant c) = X ↔ (X.is_constant = false ∧ c = 1)) :=
  ⟨addCreate_left_zero_iff c X, addCreate_right_zero_iff c X,
   subCreate_right_zero_iff c X, mulCreate_left_zero_iff c X,
   mulCreate_right_zero_iff c X, mulCreate_left_one_iff c X,
   mulCreate_right_one_iff c X, divCreate_divisor_zero_iff c X,
   divCreate_divisor_one_iff c X, divCreate_dividend_zero_iff c X,
   powCreate_exp_zero_iff c X, powCreate_exp_one_iff c X⟩

/-- C10: for any constant value `c` that is neither 0 nor within 1e-10
of E — negative values included — `NaturalLog.create(Constant(c))`
succeeds and wraps the constant in a `NaturalLog` node. -/
theorem ln_create_accepts_other_constants (c : ℚ) (h0 : c ≠ 0)
    (hE : ¬ fabs (c - constant.E) < 0.0000000001) :
    ln.create (.constant c) = .ok (.ln (.constant c)) := by
  have h1 : isConstEq (.constant c) 0 = false := by simp [isConstEq, h0]
  have h2 : (Expr.constant c).is_const_e = false := by simp [Expr.is_const_e, hE]
  simp [ln.create, h1, h2]

theorem ln_create_accepts_other_constants_witness :
    ln.create (.constant (-5)) = .ok (.ln (.constant (-5))) :=
  ln_create_accepts_other_constants (-5) (by decide) (by decide)
